import Mathlib

/-!
Verification of the Quest screen-capture tool (quest_screen_cap.py).

The development shallowly embeds the parts of the program that the
properties below speak about:

* `take_screenshot`, `start_screen_recording` — the screenshot/recording
  operations, with the exit status of each external bridge command
  supplied as an environment record;
* `connect_device` — the connection routine with its USB retry loop;
* `run_cycle` / `run_loop` — one cycle (resp. a run) of the background
  capture loop of `view_screen_realtime`;
* `update_display` — one tick of the foreground preview refresher;
* `get_device_info`, `start_live_stream`, `view_screen_realtime` — the
  remaining device-dependent operations, modelled to the depth their
  guard clauses and state changes require.

Python strings and byte strings are embedded as `List Char` and
`List Nat`; Python floats are idealised as `Rat` (every numeric literal
the program manipulates here is exactly representable); machine-level
concerns do not arise.  String predicates (`isdigit`, `lower`, `strip`)
are modelled on the ASCII character range, which covers every string the
program compares against.
-/

namespace QuestCap

/-- Models Python `str.lower()` on ASCII text (quest_screen_cap.py uses it
at lines 96 and 179). -/
def pyLower (s : List Char) : List Char := s.map Char.toLower

/-- Models Python `str.isdigit()` on ASCII text: nonempty and all decimal
digits. -/
def pyIsdigit (s : List Char) : Bool := !s.isEmpty && s.all Char.isDigit

/-- Models `s.replace('.', '')` (lines 352-353): every `'.'` removed. -/
def stripDots (s : List Char) : List Char := s.filter (· != '.')

/-- Models Python `str.strip()`: whitespace removed from both ends. -/
def pyStrip (s : List Char) : List Char :=
  ((s.dropWhile Char.isWhitespace).reverse.dropWhile Char.isWhitespace).reverse

/-- Numeric value of a digit string (most significant first). -/
def digitsToNat (s : List Char) : Nat :=
  s.foldl (fun a c => 10 * a + (c.toNat - 48)) 0

/-- Models Python `float(s)` on the strings that can reach it in this
program.  The call sites (lines 352-353) guard the call with
`s.replace('.', '').isdigit()`, so `float` is only ever applied to a
string of decimal digits and dots containing at least one digit.  On that
domain `float` succeeds exactly when the string has at most one dot, and
the value is the usual decimal reading; with two or more dots it raises
`ValueError`, modelled as `none`. -/
def pyFloat (s : List Char) : Option Rat :=
  if s.count '.' ≤ 1 then
    some ((digitsToNat (s.takeWhile (· != '.')) : Rat)
      + (digitsToNat ((s.dropWhile (· != '.')).drop 1) : Rat)
        / (10 : Rat) ^ ((s.dropWhile (· != '.')).drop 1).length)
  else none

/-- Spec-side predicate: the control string denotes a valid positive
number (parses as a float whose value is strictly positive). -/
def validPositiveNumber (s : List Char) : Bool :=
  match pyFloat s with
  | some q => decide (0 < q)
  | none => false

/-- Line 352: `float(fps_var.get()) if fps_var.get().replace('.', '').isdigit() else 10`.
`none` means the expression raised. -/
def fps_value (s : List Char) : Option Rat :=
  if pyIsdigit (stripDots s) then pyFloat s else some 10

/-- Line 353: `float(scale_var.get()) if scale_var.get().replace('.', '').isdigit() else 0.5`.
The default `0.5` is written `1/2`, its exact rational value. -/
def scale_value (s : List Char) : Option Rat :=
  if pyIsdigit (stripDots s) then pyFloat s else some (1/2)

/-- Models Python `in` on strings: `hasLead p s` holds when `p` is an
initial segment of `s`. -/
def hasLead : List Char → List Char → Bool
  | [], _ => true
  | _ :: _, [] => false
  | p :: ps, c :: cs => p == c && hasLead ps cs

/-- Models Python `p in s` (substring containment). -/
def hasSub (pat : List Char) : List Char → Bool
  | [] => pat.isEmpty
  | c :: cs => hasLead pat (c :: cs) || hasSub pat cs

/-- Models `os.path.join(folder, file)` (line 183). -/
def pathJoin (dir file : List Char) : List Char := dir ++ '/' :: file

/-! ### take_screenshot (lines 168-204) -/

/-- The characters of `".png"`. -/
def pngExt : List Char := ['.', 'p', 'n', 'g']

/-- Lines 178-180: `if not filename.lower().endswith('.png'): filename += '.png'`. -/
def ensure_png (f : List Char) : List Char :=
  if pngExt.isSuffixOf (pyLower f) then f else f ++ pngExt

/-- Exit status of each external command `take_screenshot` may run:
`true` means exit code 0. -/
structure ShotEnv where
  screencap_ok : Bool
  pull_ok : Bool
  rm_ok : Bool
deriving DecidableEq, Repr

/-- Observable outcome of one `take_screenshot` call: the Python return
value (`some path` for the returned path string, `none` for `False`),
which bridge commands were issued, and whether a local output file was
created (the pull succeeding is what creates it). -/
structure ShotOutcome where
  result : Option (List Char)
  screencap_issued : Bool
  pull_issued : Bool
  rm_issued : Bool
  file_created : Bool
deriving DecidableEq, Repr

/-- Lines 168-204.  `filename = none` models passing `None`; a supplied
empty string is falsy in Python, so it also selects the timestamp-derived
`autoname`.  The three `subprocess.run(..., check=True)` calls run in
order inside one `try`; the first non-zero exit raises
`CalledProcessError`, skipping every later statement of the `try` block,
and the handler returns `False`. -/
def take_screenshot (connected : Bool) (filename : Option (List Char))
    (autoname folder : List Char) (env : ShotEnv) : ShotOutcome :=
  if connected = false then ⟨none, false, false, false, false⟩
  else
    let fn0 := match filename with
      | none => autoname
      | some f => if f.isEmpty then autoname else f
    let full_path := pathJoin folder (ensure_png fn0)
    if env.screencap_ok = false then ⟨none, true, false, false, false⟩
    else if env.pull_ok = false then ⟨none, true, true, false, false⟩
    else if env.rm_ok = false then ⟨none, true, true, true, true⟩
    else ⟨some full_path, true, true, true, true⟩

/-! ### start_screen_recording (lines 206-250) -/

/-- The characters of `".mp4"`. -/
def mp4Ext : List Char := ['.', 'm', 'p', '4']

/-- Lines 217-218: extension forced to `.mp4`, mirroring `ensure_png`. -/
def ensure_mp4 (f : List Char) : List Char :=
  if mp4Ext.isSuffixOf (pyLower f) then f else f ++ mp4Ext

/-- Exit status of the checked commands of `start_screen_recording`
(the `screenrecord` itself is started with `Popen` and its exit status is
never checked). -/
structure RecEnv where
  pull_ok : Bool
  rm_ok : Bool
deriving DecidableEq, Repr

/-- Observable outcome of one `start_screen_recording` call. -/
structure RecOutcome where
  result : Option (List Char)
  record_issued : Bool
  pull_issued : Bool
  rm_issued : Bool
  file_created : Bool
deriving DecidableEq, Repr

/-- Lines 206-250, same shape as `take_screenshot` with the recording
command unchecked. -/
def start_screen_recording (connected : Bool) (filename : Option (List Char))
    (autoname folder : List Char) (env : RecEnv) : RecOutcome :=
  if connected = false then ⟨none, false, false, false, false⟩
  else
    let fn0 := match filename with
      | none => autoname
      | some f => if f.isEmpty then autoname else f
    let full_path := pathJoin folder (ensure_mp4 fn0)
    if env.pull_ok = false then ⟨none, true, true, false, false⟩
    else if env.rm_ok = false then ⟨none, true, true, true, true⟩
    else ⟨some full_path, true, true, true, true⟩

/-! ### Device session state and the remaining guarded operations -/

/-- The two mutable session flags of `QuestADBCapture` (lines 28-29). -/
structure SessionState where
  connected : Bool
  streaming : Bool
deriving DecidableEq, Repr

/-- The structured record returned by `get_device_info` (lines 151-155). -/
structure DeviceInfo where
  model : List Char
  android_version : List Char
  resolution : List Char
deriving DecidableEq, Repr

/-- Stdout of the three read-only property queries of `get_device_info`. -/
structure InfoEnv where
  model_out : List Char
  version_out : List Char
  res_out : List Char
deriving DecidableEq, Repr

/-- Lines 129-162: guard on `connected`, then three bridge queries whose
stripped stdout populates the record.  The pair's second component counts
bridge commands issued. -/
def get_device_info (connected : Bool) (env : InfoEnv) : Option DeviceInfo × Nat :=
  if connected = false then (none, 0)
  else (some ⟨pyStrip env.model_out, pyStrip env.version_out, pyStrip env.res_out⟩, 3)

/-- Observable outcome of `start_live_stream` (lines 252-288): final
session state, number of bridge commands issued, number of frame files
written, and whether the call returned `False` (guard failure) rather
than `None`. -/
structure StreamOutcome where
  state : SessionState
  bridge_cmds : Nat
  frames_saved : Nat
  returned_false : Bool
deriving DecidableEq, Repr

/-- Lines 252-288.  When connected, `streaming` is set, each loop
iteration issues a `screencap` and a `pull` and writes one frame file,
and the `KeyboardInterrupt` arriving after `interrupt_after` complete
iterations clears `streaming` and issues the best-effort `rm`. -/
def start_live_stream (st : SessionState) (_fps : Rat) (interrupt_after : Nat) :
    StreamOutcome :=
  if st.connected = false then ⟨st, 0, 0, true⟩
  else ⟨{ st with streaming := false }, 2 * interrupt_after + 1, interrupt_after, false⟩

/-- Observable outcome of `view_screen_realtime` (lines 290-423) at the
level of its guards: final session state, whether the background capture
thread was started (only it issues bridge commands), and the returned
boolean. -/
structure ViewOutcome where
  state : SessionState
  capture_thread_started : Bool
  result : Bool
deriving DecidableEq, Repr

/-- Lines 290-299 and 405-423: the GUI-availability guard, the
`connected` guard, then the interactive session, which starts the capture
thread and on exit clears `streaming` and returns `True`. -/
def view_screen_realtime (gui_available : Bool) (st : SessionState) : ViewOutcome :=
  if gui_available = false then ⟨st, false, false⟩
  else if st.connected = false then ⟨st, false, false⟩
  else ⟨{ st with streaming := false }, true, true⟩

/-! ### connect_device (lines 85-127) -/

/-- The characters of `"\tdevice"`, the marker line 108 looks for. -/
def tabDevice : List Char := ['\t', 'd', 'e', 'v', 'i', 'c', 'e']

/-- Line 108: `'\tdevice' in line`. -/
def lineHasDevice (line : List Char) : Bool := hasSub tabDevice line

/-- Line 108: `[line.split('\t')[0] for line in lines if '\tdevice' in line]`,
applied to the stdout lines after the header line was dropped (line 107). -/
def parse_devices (stdoutLines : List (List Char)) : List (List Char) :=
  (stdoutLines.filter lineHasDevice).map (fun l => l.takeWhile (· != '\t'))

/-- Observable outcome of `connect_device`: how many times the
device-enumeration command ran, how many 5-second waits happened, the
final `connected` flag, and the returned boolean. -/
structure ConnectResult where
  attempts : Nat
  sleeps : Nat
  connected : Bool
  success : Bool
deriving DecidableEq, Repr

/-- The USB retry loop (lines 104-121): `for attempt in range(max_attempts)`
with `remaining = max_attempts - attempt` iterations still allowed.  An
attempt that finds devices sets `connected`, breaks and returns `True`;
otherwise a 5-second sleep separates it from the next attempt, and the
last attempt returns `False`. -/
def usb_go (outputs : Nat → List (List Char)) (attempt : Nat) : Nat → ConnectResult
  | 0 => ⟨0, 0, false, false⟩
  | remaining + 1 =>
    if (parse_devices (outputs attempt)).isEmpty = false then ⟨1, 0, true, true⟩
    else if remaining = 0 then ⟨1, 0, false, false⟩
    else
      let r := usb_go outputs (attempt + 1) remaining
      ⟨r.attempts + 1, r.sleeps + 1, r.connected, r.success⟩

/-- The characters of `"connected"`, the WiFi success marker (line 96). -/
def connectedMarker : List Char := ['c', 'o', 'n', 'n', 'e', 'c', 't', 'e', 'd']

/-- Lines 85-127.  `device_ip = some out` models a network target whose
`adb connect` printed `out`; `none` models the local/USB target, whose
attempt-indexed enumeration stdout (header already dropped) is
`outputs`. -/
def connect_device (adb_installed : Bool) (device_ip : Option (List Char))
    (outputs : Nat → List (List Char)) : ConnectResult :=
  if adb_installed = false then ⟨0, 0, false, false⟩
  else
    match device_ip with
    | some out =>
      if hasSub connectedMarker (pyLower out) then ⟨0, 0, true, true⟩
      else ⟨0, 0, false, false⟩
    | none => usb_go outputs 0 3

/-! ### The capture loop of view_screen_realtime (lines 348-383) -/

/-- A decoded bitmap: only its pixel dimensions matter to the
properties. -/
structure Img where
  width : Nat
  height : Nat
deriving DecidableEq, Repr

/-- Models Python `int()` applied to a float: truncation toward zero. -/
def pyInt (q : Rat) : Int := if 0 ≤ q then ⌊q⌋ else ⌈q⌉

/-- Lines 369-371: `img.resize((int(img.width * s), int(img.height * s)))`. -/
def resizeImg (img : Img) (s : Rat) : Img :=
  ⟨(pyInt ((img.width : Rat) * s)).toNat, (pyInt ((img.height : Rat) * s)).toNat⟩

/-- Lines 368-371: the resize runs only when `current_scale != 1.0`. -/
def scale_step (img : Img) (s : Rat) : Img :=
  if s ≠ 1 then resizeImg img s else img

/-- Line 362: `result.stdout.replace(b'\r\n', b'\n')` on the raw byte
stream, non-overlapping left-to-right replacement. -/
def replaceCRLF : List Nat → List Nat
  | 13 :: 10 :: rest => 10 :: replaceCRLF rest
  | b :: rest => b :: replaceCRLF rest
  | [] => []

/-- The mutable state shared by the capture thread and the GUI:
`self.streaming`, `frame_count[0]` and `current_image[0]`
(lines 344-346). -/
structure LoopState where
  streaming : Bool
  frame_count : Nat
  current_image : Option Img
deriving DecidableEq, Repr

/-- The external inputs of one capture-loop cycle: the two control-entry
strings, whether the `subprocess.run` call itself raised (a session-level
communication failure), and otherwise the exit code and raw stdout of
`adb shell screencap -p`. -/
structure CycleInput where
  fps_str : List Char
  scale_str : List Char
  cap_raises : Bool
  cap_ret : Int
  cap_out : List Nat
deriving DecidableEq, Repr

/-- Result of one cycle: the shared state afterwards, and whether an
exception escaped to the outer handler of `capture_frames` (which sets
`self.streaming = False` and ends the thread, lines 381-383). -/
structure CycleResult where
  state : LoopState
  raised : Bool
deriving DecidableEq, Repr

/-- Lines 359-377: decode the normalized bytes and, on success, scale and
publish — `current_image[0] = img; frame_count[0] += 1`.  A decode (or
processing) failure is caught by the inner handler (lines 376-377) and
skips publishing; a non-zero capture exit skips the whole block. -/
def publish_step (decode : List Nat → Option Img) (st : LoopState)
    (inp : CycleInput) (scal : Rat) : LoopState :=
  if inp.cap_ret = 0 then
    match decode (replaceCRLF inp.cap_out) with
    | none => st
    | some img =>
      { st with
        current_image := some (scale_step img scal),
        frame_count := st.frame_count + 1 }
  else st

/-- One cycle of the `while self.streaming` body (lines 351-379), with
`decode` standing for the imaging library (`Image.open`): read the
controls (raising on an unparseable float), run the capture command
(raising on a session failure), decode-and-publish, then
`time.sleep(1.0 / current_fps)` — which raises `ZeroDivisionError`
when the parsed fps is zero.  Any raise reaches the outer handler, which
clears `streaming`. -/
def run_cycle (decode : List Nat → Option Img) (st : LoopState)
    (inp : CycleInput) : CycleResult :=
  match fps_value inp.fps_str with
  | none => ⟨{ st with streaming := false }, true⟩
  | some fps =>
    match scale_value inp.scale_str with
    | none => ⟨{ st with streaming := false }, true⟩
    | some scal =>
      if inp.cap_raises then ⟨{ st with streaming := false }, true⟩
      else
        let st1 := publish_step decode st inp scal
        if fps = 0 then ⟨{ st1 with streaming := false }, true⟩
        else ⟨st1, false⟩

/-- The `while self.streaming:` loop (line 351) over a finite schedule of
cycle inputs: the flag is checked once per cycle at the top, and an
escaped exception ends the thread at once. -/
def run_loop (decode : List Nat → Option Img) : LoopState → List CycleInput → LoopState
  | st, [] => st
  | st, inp :: rest =>
    if st.streaming = false then st
    else
      let r := run_cycle decode st inp
      if r.raised then r.state else run_loop decode r.state rest

/-! ### The preview refresher update_display (lines 385-403) -/

/-- One refresher tick: which bitmap (if any) it rendered, and whether it
scheduled its next tick. -/
structure DisplayStep where
  rendered : Option Img
  scheduled : Bool
deriving DecidableEq, Repr

/-- Lines 385-403: render only when a frame was published and
`self.streaming` holds (line 387); re-arm the 50 ms timer only while
`self.streaming` holds (lines 402-403). -/
def update_display (streaming : Bool) (slot : Option Img) : DisplayStep :=
  if slot.isSome && streaming then ⟨slot, streaming⟩
  else ⟨none, streaming⟩

/-! ### Claim C1 -/

/-- Claim C1, counterexample: with the remote screenshot command exiting
non-zero (first group) or the local pull exiting non-zero (second group),
`take_screenshot` on a connected session returns the failure indicator —
but the remote temp-file removal command is NOT issued, contradicting the
claim's "remote temp-file removal command is still issued as best-effort
cleanup". -/
theorem C1_counterexample :
    ((take_screenshot true none ['a'] ['o'] ⟨false, true, true⟩).result = none
      ∧ (take_screenshot true none ['a'] ['o'] ⟨false, true, true⟩).rm_issued = false)
    ∧ ((take_screenshot true none ['a'] ['o'] ⟨true, false, true⟩).result = none
      ∧ (take_screenshot true none ['a'] ['o'] ⟨true, false, true⟩).rm_issued = false) := by
  decide

/-- Claim C1 (amended): for every invocation of `take_screenshot` on a
connected session in which the remote screenshot command or the local
pull exits non-zero, the operation returns a failure indicator and no
local output file is created, but the remote temp-file removal command is
not issued — the cleanup runs only when the screenshot and pull both
succeed. -/
theorem C1_failure_no_cleanup (filename : Option (List Char))
    (autoname folder : List Char) (env : ShotEnv)
    (h : env.screencap_ok = false ∨ env.pull_ok = false) :
    (take_screenshot true filename autoname folder env).result = none
    ∧ (take_screenshot true filename autoname folder env).file_created = false
    ∧ (take_screenshot true filename autoname folder env).rm_issued = false := by
  obtain ⟨sc, pl, rm⟩ := env
  rcases h with h | h <;> subst h
  · simp [take_screenshot]
  · cases sc <;> simp [take_screenshot]

/-- Witness for C1: a concrete connected session whose pull exits
non-zero. -/
theorem C1_witness :
    (take_screenshot true none ['b'] ['p'] ⟨true, false, true⟩).result = none
    ∧ (take_screenshot true none ['b'] ['p'] ⟨true, false, true⟩).file_created = false
    ∧ (take_screenshot true none ['b'] ['p'] ⟨true, false, true⟩).rm_issued = false :=
  C1_failure_no_cleanup none ['b'] ['p'] ⟨true, false, true⟩ (Or.inr rfl)

/-! ### Claim C3 -/

/-- Claim C3: every user-supplied filename is saved with exactly one
`.png` suffix added when needed — a name not already ending in `.png`
(in any letter case) gets `.png` appended, a name already ending in
`.png` is left unchanged, and the result always ends in `.png`; with all
commands succeeding, the file is saved at the path built from that
normalized name. -/
theorem C3_png_extension (f : List Char) :
    (pngExt.isSuffixOf (pyLower f) = false → ensure_png f = f ++ pngExt)
    ∧ (pngExt.isSuffixOf (pyLower f) = true → ensure_png f = f)
    ∧ pngExt.isSuffixOf (pyLower (ensure_png f)) = true
    ∧ (∀ auto folder, f ≠ [] →
        (take_screenshot true (some f) auto folder ⟨true, true, true⟩).result
          = some (pathJoin folder (ensure_png f))) := by
  refine ⟨fun h => by simp [ensure_png, h], fun h => by simp [ensure_png, h], ?_, ?_⟩
  · by_cases h : pngExt.isSuffixOf (pyLower f) = true
    · simp [ensure_png, h]
    · have hb : pngExt.isSuffixOf (pyLower f) = false := by
        cases hx : pngExt.isSuffixOf (pyLower f)
        · rfl
        · exact absurd hx h
      have hlow : pyLower (f ++ pngExt) = pyLower f ++ pngExt := by
        have : List.map Char.toLower pngExt = pngExt := by decide
        simp [pyLower, this]
      simp only [ensure_png, hb, Bool.false_eq_true, if_false, hlow]
      exact List.isSuffixOf_iff_suffix.mpr (List.suffix_append (pyLower f) pngExt)
  · intro auto folder hf
    have hne : f.isEmpty = false := by simp [List.isEmpty_iff, hf]
    simp [take_screenshot, hne]

/-- Witness for C3: the filename `"shot"` yields `shot.png`, and names
already carrying the extension in lower or upper case are unchanged. -/
theorem C3_witness :
    ensure_png ['s', 'h', 'o', 't'] = ['s', 'h', 'o', 't', '.', 'p', 'n', 'g']
    ∧ ensure_png ['s', 'h', 'o', 't', '.', 'p', 'n', 'g']
        = ['s', 'h', 'o', 't', '.', 'p', 'n', 'g']
    ∧ ensure_png ['S', 'H', 'O', 'T', '.', 'P', 'N', 'G']
        = ['S', 'H', 'O', 'T', '.', 'P', 'N', 'G'] := by
  refine ⟨?_, ?_, ?_⟩
  · rw [(C3_png_extension ['s', 'h', 'o', 't']).1 (by decide)]
    decide
  · exact (C3_png_extension ['s', 'h', 'o', 't', '.', 'p', 'n', 'g']).2.1 (by decide)
  · exact (C3_png_extension ['S', 'H', 'O', 'T', '.', 'P', 'N', 'G']).2.1 (by decide)

/-! ### Claim C2 -/

/-- Claim C2, counterexample: the control string `"1.2.3"` is not a valid
positive number, yet the guard `replace('.', '').isdigit()` passes it to
`float`, which raises — so the default 10 is not substituted and the
cycle fails (the exception terminates the loop), contradicting "an
invalid control value never fails the cycle". -/
theorem C2_counterexample :
    validPositiveNumber ['1', '.', '2', '.', '3'] = false
    ∧ fps_value ['1', '.', '2', '.', '3'] ≠ some 10
    ∧ (run_cycle (fun _ => none) ⟨true, 0, none⟩
        ⟨['1', '.', '2', '.', '3'], ['0', '.', '5'], false, 0, []⟩).raised = true
    ∧ (run_cycle (fun _ => none) ⟨true, 0, none⟩
        ⟨['1', '.', '2', '.', '3'], ['0', '.', '5'], false, 0, []⟩).state.streaming
        = false := by
  refine ⟨by decide, by decide, by decide, by decide⟩

/-- Claim C2 (amended): the defaults are substituted exactly when the
control string with its dots removed is not a nonempty digit string —
then fps falls back to 10 and scale to 0.5, and such a cycle never fails
on account of the controls; but a digit-and-dot string always reaches
`float`, so a value like `"1.2.3"` (raises) or `"0"` (used as-is, then
divides by zero at the sleep) can fail the cycle. -/
theorem C2_invalid_controls_default (decode : List Nat → Option Img)
    (st : LoopState) (inp : CycleInput)
    (hf : pyIsdigit (stripDots inp.fps_str) = false)
    (hs : pyIsdigit (stripDots inp.scale_str) = false)
    (hc : inp.cap_raises = false) :
    fps_value inp.fps_str = some 10
    ∧ scale_value inp.scale_str = some (1/2)
    ∧ (run_cycle decode st inp).raised = false := by
  have h1 : fps_value inp.fps_str = some 10 := by simp [fps_value, hf]
  have h2 : scale_value inp.scale_str = some (1/2) := by simp [scale_value, hs]
  refine ⟨h1, h2, ?_⟩
  have h10 : ((10 : Rat) = 0) = False := by norm_num
  simp [run_cycle, h1, h2, hc, h10]

/-- Witness for C2: concrete non-numeric control strings fall back to the
defaults and the cycle completes without raising. -/
theorem C2_witness :
    fps_value ['x'] = some 10
    ∧ scale_value ['y'] = some (1/2)
    ∧ (run_cycle (fun _ => none) ⟨true, 0, none⟩
        ⟨['x'], ['y'], false, 1, []⟩).raised = false :=
  C2_invalid_controls_default (fun _ => none) ⟨true, 0, none⟩
    ⟨['x'], ['y'], false, 1, []⟩ rfl rfl rfl

/-! ### Claim C6 -/

/-- Claim C6: for a local/USB target with the bridge installed, if no
enumeration attempt lists a `device`-status entry then `connect_device`
issues the enumeration command exactly 3 times with a 5-second wait
between consecutive attempts (elapsed 10 s, hence at least 10 s and under
20 s) and returns failure without setting the connected flag; and if
attempt `k` (the first to do so) lists a device entry, the command has
run exactly `k + 1` times, the connected flag is set and success is
returned with no further attempts. -/
theorem C6_usb_retry (outputs : Nat → List (List Char)) :
    ((∀ i, i < 3 → parse_devices (outputs i) = []) →
        connect_device true none outputs = ⟨3, 2, false, false⟩
        ∧ 10 ≤ 5 * (connect_device true none outputs).sleeps
        ∧ 5 * (connect_device true none outputs).sleeps < 20)
    ∧ (∀ k, k < 3 → (∀ i, i < k → parse_devices (outputs i) = []) →
        parse_devices (outputs k) ≠ [] →
        connect_device true none outputs = ⟨k + 1, k, true, true⟩) := by
  constructor
  · intro h
    have h0 := h 0 (by omega)
    have h1 := h 1 (by omega)
    have h2 := h 2 (by omega)
    have hc : connect_device true none outputs = ⟨3, 2, false, false⟩ := by
      simp [connect_device, usb_go, h0, h1, h2]
    exact ⟨hc, by rw [hc]; decide, by rw [hc]; decide⟩
  · intro k hk hprev hdev
    have hne : (parse_devices (outputs k)).isEmpty = false := by
      simp [List.isEmpty_iff, hdev]
    interval_cases k
    · simp [connect_device, usb_go, hne]
    · have h0 := hprev 0 (by omega)
      simp [connect_device, usb_go, h0, hne]
    · have h0 := hprev 0 (by omega)
      have h1 := hprev 1 (by omega)
      simp [connect_device, usb_go, h0, h1, hne]

/-- Witness for C6: always-empty enumerations exhaust the 3 attempts with
2 waits; an immediate `device` entry connects on the first attempt. -/
theorem C6_witness :
    connect_device true none (fun _ => []) = ⟨3, 2, false, false⟩
    ∧ connect_device true none
        (fun _ => [['a', '\t', 'd', 'e', 'v', 'i', 'c', 'e']]) = ⟨1, 0, true, true⟩ := by
  constructor
  · exact ((C6_usb_retry (fun _ => [])).1 (fun i _ => rfl)).1
  · exact (C6_usb_retry (fun _ => [['a', '\t', 'd', 'e', 'v', 'i', 'c', 'e']])).2 0
      (by omega) (fun i hi => absurd hi (Nat.not_lt_zero i)) (by decide)

/-! ### Capture-loop helper lemmas -/

/-- The publish step changes the frame counter by at most one, and never
decreases it. -/
theorem publish_frame_bounds (decode : List Nat → Option Img) (st : LoopState)
    (inp : CycleInput) (scal : Rat) :
    st.frame_count ≤ (publish_step decode st inp scal).frame_count
    ∧ (publish_step decode st inp scal).frame_count ≤ st.frame_count + 1 := by
  unfold publish_step
  by_cases hr : inp.cap_ret = 0
  · rcases hd : decode (replaceCRLF inp.cap_out) with _ | img <;> simp [hr, hd]
  · simp [hr]

/-- One cycle changes the frame counter by at most one, and never
decreases it. -/
theorem run_cycle_frame_bounds (decode : List Nat → Option Img) (st : LoopState)
    (inp : CycleInput) :
    st.frame_count ≤ (run_cycle decode st inp).state.frame_count
    ∧ (run_cycle decode st inp).state.frame_count ≤ st.frame_count + 1 := by
  rcases hf : fps_value inp.fps_str with _ | f
  · simp [run_cycle, hf]
  rcases hs : scale_value inp.scale_str with _ | sv
  · simp [run_cycle, hf, hs]
  by_cases hc : inp.cap_raises = true
  · simp [run_cycle, hf, hs, hc]
  have hb := publish_frame_bounds decode st inp sv
  by_cases hz : f = 0 <;>
    · simp [run_cycle, hf, hs, hc, hz]
      exact hb

/-- Over any schedule of cycles, the frame counter never decreases. -/
theorem run_loop_frame_mono (decode : List Nat → Option Img) :
    ∀ (inps : List CycleInput) (st : LoopState),
      st.frame_count ≤ (run_loop decode st inps).frame_count := by
  intro inps
  induction inps with
  | nil => intro st; simp [run_loop]
  | cons inp rest ih =>
    intro st
    by_cases h : st.streaming = false
    · simp [run_loop, h]
    · have hb := run_cycle_frame_bounds decode st inp
      rcases hr : (run_cycle decode st inp).raised
      · calc st.frame_count ≤ (run_cycle decode st inp).state.frame_count := hb.1
          _ ≤ (run_loop decode (run_cycle decode st inp).state rest).frame_count :=
            ih (run_cycle decode st inp).state
          _ = (run_loop decode st (inp :: rest)).frame_count := by
            simp [run_loop, h, hr]
      · calc st.frame_count ≤ (run_cycle decode st inp).state.frame_count := hb.1
          _ = (run_loop decode st (inp :: rest)).frame_count := by
            simp [run_loop, h, hr]

/-! ### Claim C4 -/

/-- Claim C4: for every decoded bitmap and every scale factor `s` in
`(0, 1]`, the capture loop's resize step produces a bitmap of exactly
`floor(width * s)` by `floor(height * s)` pixels, and at `s = 1` no
resize is performed — the bitmap is returned unchanged. -/
theorem C4_resize_dims (img : Img) (s : Rat) (h0 : 0 < s) (_h1 : s ≤ 1) :
    scale_step img s
      = ⟨(⌊(img.width : Rat) * s⌋).toNat, (⌊(img.height : Rat) * s⌋).toNat⟩
    ∧ scale_step img 1 = img := by
  obtain ⟨w, ht⟩ := img
  constructor
  · by_cases hs : s = 1
    · subst hs
      simp [scale_step, resizeImg, pyInt, Int.floor_natCast, Int.toNat_natCast]
    · have hw : (0 : Rat) ≤ (w : Rat) * s := mul_nonneg (Nat.cast_nonneg w) h0.le
      have hh : (0 : Rat) ≤ (ht : Rat) * s := mul_nonneg (Nat.cast_nonneg ht) h0.le
      simp [scale_step, hs, resizeImg, pyInt, hw, hh]
  · simp [scale_step]

/-- Witness for C4: a 3664 by 1920 frame at scale one half is resized to
exactly 1832 by 960, and scale 1 leaves it untouched. -/
theorem C4_witness :
    (0 : Rat) < 1/2
    ∧ scale_step ⟨3664, 1920⟩ (1/2) = ⟨1832, 960⟩
    ∧ scale_step ⟨3664, 1920⟩ 1 = ⟨3664, 1920⟩ := by
  have h := C4_resize_dims ⟨3664, 1920⟩ (1/2) (by norm_num) (by norm_num)
  refine ⟨by norm_num, ?_, h.2⟩
  rw [h.1]
  norm_num
  decide

/-! ### Claim C5 -/

/-- Claim C5: on a cycle whose captured bytes fail to decode, publishing
is skipped — the shared state (frame counter and published image) is
unchanged and no exception escapes — and the loop goes on to execute the
next cycle. -/
theorem C5_decode_skip (decode : List Nat → Option Img) (st : LoopState)
    (inp : CycleInput) (f sv : Rat)
    (hf : fps_value inp.fps_str = some f) (hf0 : f ≠ 0)
    (hs : scale_value inp.scale_str = some sv)
    (hc : inp.cap_raises = false) (hr : inp.cap_ret = 0)
    (hd : decode (replaceCRLF inp.cap_out) = none) :
    run_cycle decode st inp = ⟨st, false⟩
    ∧ (∀ rest, st.streaming = true →
        run_loop decode st (inp :: rest) = run_loop decode st rest) := by
  have h1 : publish_step decode st inp sv = st := by simp [publish_step, hr, hd]
  have h2 : run_cycle decode st inp = ⟨st, false⟩ := by
    simp [run_cycle, hf, hs, hc, h1, hf0]
  exact ⟨h2, fun rest hst => by simp [run_loop, hst, h2]⟩

/-- Witness for C5: an empty captured byte stream decodes to nothing; the
cycle leaves the state untouched and does not raise. -/
theorem C5_witness :
    run_cycle (fun _ => none) ⟨true, 5, none⟩ ⟨['x'], ['y'], false, 0, []⟩
      = ⟨⟨true, 5, none⟩, false⟩ :=
  (C5_decode_skip (fun _ => none) ⟨true, 5, none⟩ ⟨['x'], ['y'], false, 0, []⟩
    10 (1/2) rfl (by norm_num) rfl rfl rfl rfl).1

/-! ### Claim C7 -/

/-- Claim C7: once the streaming flag is false, the capture loop runs no
further cycle (so no further publish happens), and one preview-refresher
tick renders nothing and schedules no next tick; moreover any single
in-progress cycle publishes at most one frame. -/
theorem C7_flag_stop (decode : List Nat → Option Img) (st : LoopState)
    (inps : List CycleInput) (slot : Option Img) (h : st.streaming = false) :
    run_loop decode st inps = st
    ∧ (update_display st.streaming slot).rendered = none
    ∧ (update_display st.streaming slot).scheduled = false
    ∧ (∀ st2 inp, (run_cycle decode st2 inp).state.frame_count ≤ st2.frame_count + 1) := by
  refine ⟨?_, ?_, ?_, fun st2 inp => (run_cycle_frame_bounds decode st2 inp).2⟩
  · cases inps <;> simp [run_loop, h]
  · rw [h]; simp [update_display]
  · rw [h]; simp [update_display]

/-- Witness for C7: with the flag already false, a scheduled cycle does
not run and a refresher tick neither renders nor re-arms. -/
theorem C7_witness :
    run_loop (fun _ => none) ⟨false, 3, none⟩ [⟨['x'], ['y'], false, 0, []⟩]
      = ⟨false, 3, none⟩
    ∧ (update_display false (some ⟨8, 6⟩)).rendered = none
    ∧ (update_display false (some ⟨8, 6⟩)).scheduled = false := by
  have h := C7_flag_stop (fun _ => none) ⟨false, 3, none⟩
    [⟨['x'], ['y'], false, 0, []⟩] (some ⟨8, 6⟩) rfl
  exact ⟨h.1, h.2.1, h.2.2.1⟩

/-! ### Claim C8 -/

/-- Claim C8: an unexpected exception during a cycle other than a decode
failure — here, the capture command raising at the session level — makes
the cycle raise, sets the streaming flag false and terminates the loop;
and in general every escaped exception leaves the flag false. -/
theorem C8_session_error (decode : List Nat → Option Img) (st : LoopState)
    (inp : CycleInput) (f sv : Rat)
    (hf : fps_value inp.fps_str = some f)
    (hs : scale_value inp.scale_str = some sv)
    (hc : inp.cap_raises = true) :
    (run_cycle decode st inp).raised = true
    ∧ (run_cycle decode st inp).state.streaming = false
    ∧ (∀ rest, st.streaming = true →
        run_loop decode st (inp :: rest) = (run_cycle decode st inp).state)
    ∧ (∀ st2 inp2, (run_cycle decode st2 inp2).raised = true →
        (run_cycle decode st2 inp2).state.streaming = false) := by
  have hcy : run_cycle decode st inp = ⟨{ st with streaming := false }, true⟩ := by
    simp [run_cycle, hf, hs, hc]
  refine ⟨by rw [hcy], by rw [hcy], ?_, ?_⟩
  · intro rest hst
    simp [run_loop, hst, hcy]
  · intro st2 inp2 hr
    rcases h2 : fps_value inp2.fps_str with _ | f2
    · simp [run_cycle, h2]
    rcases h3 : scale_value inp2.scale_str with _ | sv2
    · simp [run_cycle, h2, h3]
    by_cases h4 : inp2.cap_raises = true
    · simp [run_cycle, h2, h3, h4]
    by_cases h5 : f2 = 0
    · simp [run_cycle, h2, h3, h4, h5]
    · exfalso
      simp [run_cycle, h2, h3, h4, h5] at hr

/-- Witness for C8: a concrete session-level capture failure raises, and
the flag ends false. -/
theorem C8_witness :
    (run_cycle (fun _ => none) ⟨true, 2, none⟩ ⟨['x'], ['y'], true, 0, []⟩).raised = true
    ∧ (run_cycle (fun _ => none) ⟨true, 2, none⟩
        ⟨['x'], ['y'], true, 0, []⟩).state.streaming = false := by
  have h := C8_session_error (fun _ => none) ⟨true, 2, none⟩
    ⟨['x'], ['y'], true, 0, []⟩ 10 (1/2) rfl rfl rfl
  exact ⟨h.1, h.2.1⟩

/-! ### Claim C9 -/

/-- Claim C9: a successfully decoded frame is published and increments
the frame counter by exactly one; a cycle never decreases the counter,
and over any run the published sequence number is monotonically
non-decreasing. -/
theorem C9_counter_monotone (decode : List Nat → Option Img) (st : LoopState)
    (inp : CycleInput) (f sv : Rat) (img : Img)
    (hf : fps_value inp.fps_str = some f)
    (hs : scale_value inp.scale_str = some sv)
    (hc : inp.cap_raises = false) (hr : inp.cap_ret = 0)
    (hd : decode (replaceCRLF inp.cap_out) = some img) :
    (run_cycle decode st inp).state.frame_count = st.frame_count + 1
    ∧ (run_cycle decode st inp).state.current_image = some (scale_step img sv)
    ∧ (∀ st2 inp2, st2.frame_count ≤ (run_cycle decode st2 inp2).state.frame_count)
    ∧ (∀ st2 inps, st2.frame_count ≤ (run_loop decode st2 inps).frame_count) := by
  have h1 : publish_step decode st inp sv =
      { st with
        current_image := some (scale_step img sv),
        frame_count := st.frame_count + 1 } := by
    simp [publish_step, hr, hd]
  refine ⟨?_, ?_, fun st2 inp2 => (run_cycle_frame_bounds decode st2 inp2).1,
    fun st2 inps => run_loop_frame_mono decode inps st2⟩ <;>
  · by_cases hz : f = 0 <;> simp [run_cycle, hf, hs, hc, h1, hz]

/-- Witness for C9: a frame decoding at 3664 by 1920 takes the counter
from 5 to 6 and is published scaled. -/
theorem C9_witness :
    (run_cycle (fun _ => some ⟨3664, 1920⟩) ⟨true, 5, none⟩
      ⟨['x'], ['y'], false, 0, []⟩).state.frame_count = 6
    ∧ (run_cycle (fun _ => some ⟨3664, 1920⟩) ⟨true, 5, none⟩
        ⟨['x'], ['y'], false, 0, []⟩).state.current_image
        = some (scale_step ⟨3664, 1920⟩ (1/2)) := by
  have h := C9_counter_monotone (fun _ => some ⟨3664, 1920⟩) ⟨true, 5, none⟩
    ⟨['x'], ['y'], false, 0, []⟩ 10 (1/2) ⟨3664, 1920⟩ rfl rfl rfl rfl rfl
  exact ⟨h.1, h.2.1⟩

/-! ### Claim C10 -/

/-- Claim C10: every device-dependent public operation —
`get_device_info`, `take_screenshot`, `start_screen_recording`,
`start_live_stream` and `view_screen_realtime` — returns its failure
indicator (`None` or `False`) when the connected flag is false, without
issuing any bridge command, creating any local file, or modifying the
session state. -/
theorem C10_guards (st : SessionState) (h : st.connected = false)
    (ienv : InfoEnv) (fn rfn : Option (List Char)) (auto rauto folder : List Char)
    (senv : ShotEnv) (renv : RecEnv) (fps : Rat) (k : Nat) :
    get_device_info st.connected ienv = (none, 0)
    ∧ take_screenshot st.connected fn auto folder senv = ⟨none, false, false, false, false⟩
    ∧ start_screen_recording st.connected rfn rauto folder renv
        = ⟨none, false, false, false, false⟩
    ∧ start_live_stream st fps k = ⟨st, 0, 0, true⟩
    ∧ view_screen_realtime true st = ⟨st, false, false⟩ := by
  refine ⟨?_, ?_, ?_, ?_, ?_⟩ <;>
    simp [get_device_info, take_screenshot, start_screen_recording,
      start_live_stream, view_screen_realtime, h]

/-- Witness for C10: a disconnected session rejects all five operations
with no side effects. -/
theorem C10_witness :
    get_device_info false ⟨[], [], []⟩ = (none, 0)
    ∧ take_screenshot false none ['a'] ['o'] ⟨true, true, true⟩
        = ⟨none, false, false, false, false⟩
    ∧ start_screen_recording false none ['a'] ['o'] ⟨true, true⟩
        = ⟨none, false, false, false, false⟩
    ∧ start_live_stream ⟨false, false⟩ 10 4 = ⟨⟨false, false⟩, 0, 0, true⟩
    ∧ view_screen_realtime true ⟨false, false⟩ = ⟨⟨false, false⟩, false, false⟩ :=
  C10_guards ⟨false, false⟩ rfl ⟨[], [], []⟩ none none ['a'] ['a'] ['o']
    ⟨true, true, true⟩ ⟨true, true⟩ 10 4

end QuestCap
